import Mathlib

/- Verification of the Adventure Works batch data pipeline
   (bronze_to_silver.py, silver_to_gold.py, visualize.py).

   Tables are embedded as lists of typed rows.  Numeric (float) columns are
   modelled as rationals; a nullable float column is `Option ℚ`, with `none`
   standing for NaN/null.  Pandas operations are modelled as follows:
   - `merge` with how=left / `merge` (inner): per-left-row expansion over
     the matching right rows, preserving left order (pandas preserves the
     order of the left keys for both join kinds);
   - `groupby(keys).agg(...)`: group keys are the deduplicated key tuples,
     sorted ascending (pandas `sort=True` default); each group holds the
     joined rows with that key, in input order;
   - `sum`/`mean` aggregate with `skipna=True`: nulls are dropped; the sum of
     an all-null column is 0, its mean is NaN (`none`);
   - `count` aggregate: number of non-null entries of the counted column
     (`OrderQuantity`, which is never null, so it is the group row count);
   - `sort_values`: a comparison sort on the given column(s); it is modelled
     here by insertion sort — a correct comparison sort; note the source
     relies on the pandas default `kind=quicksort`, whose ordering of equal
     keys is not specified, so tie order is exactly the one point where this
     model fixes behaviour the source leaves open;
   - `pd.qcut(col, q=4, labels=...)`: bin edges are the 0/25/50/75/100 linear
     interpolation percentiles of the column; duplicate edges raise an error
     (the default duplicates=raise policy). -/

namespace AdventureWorks

/-- Timestamp models a pandas datetime at day resolution (`pd.to_datetime`
of a date string); only equality and field access are used downstream. -/
structure Timestamp where
  year : Int
  month : Int
  day : Int
deriving DecidableEq

/-- RawValue models a cell of a CSV column as read by `pd.read_csv`: a
numeric value, an unparsed string, or a missing value (NaN). -/
inductive RawValue where
  | num (n : Int)
  | str (s : String)
  | null
deriving DecidableEq

/-- PandasError models the exception raised by a failing pandas call:
`astype(int)` on a non-numeric cell, or `qcut` on non-unique bin edges. -/
inductive PandasError where
  | typeError
  | valueError
deriving DecidableEq

/-- Bronze customer row (AdventureWorks_Customers.csv): the key may be dirty;
Gender / MaritalStatus may be missing. -/
structure RawCustomer where
  CustomerKey : RawValue
  FirstName : String
  LastName : String
  Gender : Option String
  MaritalStatus : Option String
deriving DecidableEq

/-- Bronze product row (AdventureWorks_Products.csv). -/
structure RawProduct where
  ProductKey : Int
  ProductName : Option String
  ModelName : Option String
  ProductSubcategoryKey : Option Int
  ProductPrice : ℚ
deriving DecidableEq

/-- Bronze sales row (AdventureWorks_Sales_20xx.csv) after the type
coercions of lines 114-118 of bronze_to_silver.py. -/
structure RawSales where
  OrderDate : Timestamp
  StockDate : Timestamp
  OrderNumber : String
  ProductKey : Int
  CustomerKey : Int
  TerritoryKey : Int
  OrderLineItem : Int
  OrderQuantity : Int
deriving DecidableEq

/-- Silver calendar row: Date plus the fields derived from it
(process_calendar_data; the locale name columns are presentation-only and
unused downstream, so they are not modelled). -/
structure CalendarRow where
  Date : Timestamp
  Year : Int
  Month : Int
  Day : Int
  Quarter : Int
deriving DecidableEq

/-- Silver customer row after coercion and null filling. -/
structure CustomerRow where
  CustomerKey : Int
  FirstName : String
  LastName : String
  Gender : String
  MaritalStatus : String
deriving DecidableEq

/-- Silver product row after null filling (process_product_data). -/
structure ProductRow where
  ProductKey : Int
  ProductName : String
  ModelName : String
  ProductSubcategoryKey : Int
  ProductPrice : ℚ
deriving DecidableEq

/-- Silver sales row: the `final_cols` schema of process_sales_data.
UnitPrice and the derived metrics are nullable because the product join is
a left join. -/
structure SalesRow where
  OrderDate : Timestamp
  StockDate : Timestamp
  OrderNumber : String
  ProductKey : Int
  CustomerKey : Int
  TerritoryKey : Int
  OrderLineItem : Int
  OrderQuantity : Int
  UnitPrice : Option ℚ
  SalesAmount : Option ℚ
  TotalProductCost : Option ℚ
  Profit : Option ℚ
  ProfitMargin : Option ℚ
deriving DecidableEq

/-- Model of `Series.astype(int)` on one cell: numbers pass through,
strings must parse as an integer, anything else raises. -/
def astype_int : RawValue → Except PandasError Int
  | .num n => .ok n
  | .str s =>
      match s.toInt? with
      | some n => .ok n
      | none => .error .typeError
  | .null => .error .typeError

/-- RawValue.numeric holds when `astype(int)` succeeds on the cell. -/
def RawValue.numeric : RawValue → Prop
  | .num _ => True
  | .str s => (s.toInt?).isSome
  | .null => False

instance : DecidablePred RawValue.numeric := by
  intro v
  cases v <;> simp [RawValue.numeric] <;> infer_instance

/-- process_calendar_data: derive Year/Month/Day/Quarter from Date
(the `dt.year` etc. accessors of bronze_to_silver.py lines 25-32). -/
def process_calendar_data (dates : List Timestamp) : List CalendarRow :=
  dates.map (fun d => ⟨d, d.year, d.month, d.day, (d.month + 2) / 3⟩)

/-- process_customer_data: coerce CustomerKey with `astype(int)` (which
fails on the whole column if any cell is non-numeric), then fill missing
Gender / MaritalStatus with "Unknown" (lines 51-55). -/
def process_customer_data : List RawCustomer → Except PandasError (List CustomerRow)
  | [] => .ok []
  | r :: rs =>
    match astype_int r.CustomerKey with
    | .error e => .error e
    | .ok k =>
      match process_customer_data rs with
      | .error e => .error e
      | .ok out =>
          .ok ({ CustomerKey := k,
                 FirstName := r.FirstName,
                 LastName := r.LastName,
                 Gender := r.Gender.getD ("Unknown"),
                 MaritalStatus := r.MaritalStatus.getD ("Unknown") } :: out)

/-- process_product_data: fill missing names and subcategory key
(lines 74-79). -/
def process_product_data (rows : List RawProduct) : List ProductRow :=
  rows.map (fun r =>
    { ProductKey := r.ProductKey,
      ProductName := r.ProductName.getD ("Unknown Product"),
      ModelName := r.ModelName.getD ("Unknown Model"),
      ProductSubcategoryKey := r.ProductSubcategoryKey.getD (-1),
      ProductPrice := r.ProductPrice })

/-- One silver sales row from a raw row and the looked-up product price
(lines 132-136): UnitPrice = ProductPrice, SalesAmount = OrderQuantity *
UnitPrice, TotalProductCost = SalesAmount * 0.7, Profit = SalesAmount -
TotalProductCost, ProfitMargin = Profit / SalesAmount.  Null (NaN)
propagates through arithmetic, and 0/0 is NaN. -/
def mkSalesRow (r : RawSales) (price : Option ℚ) : SalesRow :=
  let sa : Option ℚ := price.map (fun p => (r.OrderQuantity : ℚ) * p)
  let cost : Option ℚ := sa.map (fun s => s * (7 / 10))
  let profit : Option ℚ :=
    match sa, cost with
    | some s, some c => some (s - c)
    | _, _ => none
  let margin : Option ℚ :=
    match profit, sa with
    | some pr, some s => if s = 0 then none else some (pr / s)
    | _, _ => none
  { OrderDate := r.OrderDate, StockDate := r.StockDate,
    OrderNumber := r.OrderNumber, ProductKey := r.ProductKey,
    CustomerKey := r.CustomerKey, TerritoryKey := r.TerritoryKey,
    OrderLineItem := r.OrderLineItem, OrderQuantity := r.OrderQuantity,
    UnitPrice := price, SalesAmount := sa, TotalProductCost := cost,
    Profit := profit, ProfitMargin := margin }

/-- The left merge of sales with product prices on ProductKey (line 129):
every sales row is kept; an unmatched row gets a null price, a matched row
is repeated once per matching product, in product-table order. -/
def merge_product_prices (sales : List RawSales) (products : List RawProduct) :
    List SalesRow :=
  sales.flatMap (fun s =>
    match products.filter (fun p => decide (p.ProductKey = s.ProductKey)) with
    | [] => [mkSalesRow s none]
    | ps => ps.map (fun p => mkSalesRow s (some p.ProductPrice)))

/-- process_sales_data (lines 101-156): each yearly file is an
`Option (List RawSales)` (`none` = the file does not exist); present files
are concatenated; with no file present the stage produces nothing
(the "No sales data found" branch); otherwise the combined table is merged
with product prices and the metric columns are derived. -/
def process_sales_data (y2015 y2016 y2017 : Option (List RawSales))
    (products : List RawProduct) : Option (List SalesRow) :=
  let present := [y2015, y2016, y2017].filterMap id
  if present.isEmpty then none
  else some (merge_product_prices present.flatten products)

/-- The exception channel of process_sales_data made explicit: lines
101-156 contain no raise statement on either branch — the no-files branch
prints "No sales data found" and returns None (here `.ok none`), the other
branch returns the table — so neither outcome is an exception. -/
def process_sales_data_outcome (y2015 y2016 y2017 : Option (List RawSales))
    (products : List RawProduct) :
    Except PandasError (Option (List SalesRow)) :=
  let present := [y2015, y2016, y2017].filterMap id
  if present.isEmpty then .ok none
  else .ok (some (merge_product_prices present.flatten products))

/-- bronze_to_silver_main (the `main` of bronze_to_silver.py, lines
159-177, under the alias main.py imports it by): runs the four silver
transformations in order and reports success; an exception from customer
coercion propagates uncaught, while the sales step's return value —
including the None of the no-files branch — is discarded, so a run with no
yearly sales file still completes successfully. -/
def bronze_to_silver_main (dates : List Timestamp)
    (customers : List RawCustomer) (products : List RawProduct)
    (y2015 y2016 y2017 : Option (List RawSales)) :
    Except PandasError
      (List CalendarRow × List CustomerRow × List ProductRow
        × Option (List SalesRow)) :=
  match process_customer_data customers with
  | .error e => .error e
  | .ok cust =>
      .ok (process_calendar_data dates, cust, process_product_data products,
        process_sales_data y2015 y2016 y2017 products)

/-- Sum of a nullable column with pandas `skipna=True`: nulls are dropped,
an all-null column sums to 0. -/
def optSum (l : List (Option ℚ)) : ℚ := (l.filterMap id).sum

/-- Mean of a nullable column with pandas `skipna=True`: nulls are dropped;
the mean of an all-null column is NaN (`none`). -/
def optMean (l : List (Option ℚ)) : Option ℚ :=
  let vs := l.filterMap id
  if vs.isEmpty then none else some (vs.sum / (vs.length : ℚ))

/-- Model of `groupby(keys).agg(...).reset_index()`: the deduplicated key
tuples, sorted ascending (pandas `sort=True` default), each mapped to an
output row built from the rows of its group (kept in input order). -/
def aggregate {ρ κ σ : Type} [DecidableEq κ] (keyLe : κ → κ → Prop)
    [DecidableRel keyLe] (keyOf : ρ → κ) (mk : κ → List ρ → σ)
    (rows : List ρ) : List σ :=
  (List.insertionSort keyLe ((rows.map keyOf).dedup)).map
    (fun k => mk k (rows.filter (fun r => decide (keyOf r = k))))

/-- Gold sales summary row. -/
structure SummaryRow where
  ProductKey : Int
  ProductName : String
  ModelName : String
  TotalQuantity : Int
  TotalSales : ℚ
  AvgUnitPrice : Option ℚ
  OrderCount : Nat
deriving DecidableEq

/-- Gold customer insights row. -/
structure InsightsRow where
  CustomerKey : Int
  FirstName : String
  LastName : String
  Gender : String
  MaritalStatus : String
  TotalSpend : ℚ
  OrderCount : Nat
  AvgOrderValue : Option ℚ
deriving DecidableEq

/-- Gold monthly sales row. -/
structure MonthlyRow where
  Year : Int
  Month : Int
  MonthlySales : ℚ
  OrderCount : Nat
  AvgOrderValue : Option ℚ
deriving DecidableEq

/-- Ascending lexicographic order on sales-summary group keys. -/
def summaryKeyLe (a b : Int × String × String) : Prop :=
  a.1 < b.1 ∨ (a.1 = b.1 ∧ (a.2.1 < b.2.1 ∨ (a.2.1 = b.2.1 ∧ a.2.2 ≤ b.2.2)))

instance : DecidableRel summaryKeyLe := by
  intro a b
  unfold summaryKeyLe
  infer_instance

/-- Ascending lexicographic order on customer-insights group keys. -/
def insightsKeyLe (a b : Int × String × String × String × String) : Prop :=
  a.1 < b.1 ∨ (a.1 = b.1 ∧ (a.2.1 < b.2.1 ∨ (a.2.1 = b.2.1 ∧
    (a.2.2.1 < b.2.2.1 ∨ (a.2.2.1 = b.2.2.1 ∧
      (a.2.2.2.1 < b.2.2.2.1 ∨ (a.2.2.2.1 = b.2.2.2.1 ∧
        a.2.2.2.2 ≤ b.2.2.2.2)))))))

instance : DecidableRel insightsKeyLe := by
  intro a b
  unfold insightsKeyLe
  infer_instance

/-- Ascending lexicographic order on (Year, Month) keys. -/
def ymLe (a b : Int × Int) : Prop :=
  a.1 < b.1 ∨ (a.1 = b.1 ∧ a.2 ≤ b.2)

instance : DecidableRel ymLe := by
  intro a b
  unfold ymLe
  infer_instance

/-- Inner merge of sales and products on ProductKey (silver_to_gold.py
line 29): unmatched rows of either side are dropped; left order is kept. -/
def joinSalesProducts (sales : List SalesRow) (products : List ProductRow) :
    List (SalesRow × ProductRow) :=
  sales.flatMap (fun s =>
    (products.filter (fun p => decide (p.ProductKey = s.ProductKey))).map
      (fun p => (s, p)))

/-- Group key of the sales summary: (ProductKey, ProductName, ModelName). -/
def summaryKey (sp : SalesRow × ProductRow) : Int × String × String :=
  (sp.1.ProductKey, sp.2.ProductName, sp.2.ModelName)

/-- The aggregation of one sales-summary group (line 32-37): sum of
OrderQuantity, sum of SalesAmount, mean of UnitPrice, count of
OrderQuantity. -/
def summaryAgg (k : Int × String × String)
    (g : List (SalesRow × ProductRow)) : SummaryRow :=
  { ProductKey := k.1, ProductName := k.2.1, ModelName := k.2.2,
    TotalQuantity := (g.map (fun sp => sp.1.OrderQuantity)).sum,
    TotalSales := optSum (g.map (fun sp => sp.1.SalesAmount)),
    AvgUnitPrice := optMean (g.map (fun sp => sp.1.UnitPrice)),
    OrderCount := g.length }

/-- create_sales_summary (lines 16-43): inner-join sales and products on
ProductKey, group by (ProductKey, ProductName, ModelName), aggregate, and
sort by TotalSales descending. -/
def create_sales_summary (sales : List SalesRow) (products : List ProductRow) :
    List SummaryRow :=
  let joined := joinSalesProducts sales products
  List.insertionSort (fun a b : SummaryRow => b.TotalSales ≤ a.TotalSales)
    (aggregate summaryKeyLe summaryKey summaryAgg joined)

/-- Inner merge of sales and customers on CustomerKey (line 59). -/
def joinSalesCustomers (sales : List SalesRow) (customers : List CustomerRow) :
    List (SalesRow × CustomerRow) :=
  sales.flatMap (fun s =>
    (customers.filter (fun c => decide (c.CustomerKey = s.CustomerKey))).map
      (fun c => (s, c)))

/-- Group key of customer insights. -/
def insightsKey (sc : SalesRow × CustomerRow) :
    Int × String × String × String × String :=
  (sc.1.CustomerKey, sc.2.FirstName, sc.2.LastName, sc.2.Gender,
    sc.2.MaritalStatus)

/-- create_customer_insights (lines 46-72): inner-join sales and customers
on CustomerKey, group by (CustomerKey, FirstName, LastName, Gender,
MaritalStatus), aggregate, and sort by TotalSpend descending. -/
def insightsAgg (k : Int × String × String × String × String)
    (g : List (SalesRow × CustomerRow)) : InsightsRow :=
  { CustomerKey := k.1, FirstName := k.2.1, LastName := k.2.2.1,
    Gender := k.2.2.2.1, MaritalStatus := k.2.2.2.2,
    TotalSpend := optSum (g.map (fun sc => sc.1.SalesAmount)),
    OrderCount := g.length,
    AvgOrderValue := optMean (g.map (fun sc => sc.1.SalesAmount)) }

def create_customer_insights (customers : List CustomerRow)
    (sales : List SalesRow) : List InsightsRow :=
  let joined := joinSalesCustomers sales customers
  List.insertionSort (fun a b : InsightsRow => b.TotalSpend ≤ a.TotalSpend)
    (aggregate insightsKeyLe insightsKey insightsAgg joined)

/-- Inner merge of sales and calendar on OrderDate = Date (lines 88-92). -/
def joinSalesCalendar (sales : List SalesRow) (calendar : List CalendarRow) :
    List (SalesRow × CalendarRow) :=
  sales.flatMap (fun s =>
    (calendar.filter (fun c => decide (c.Date = s.OrderDate))).map
      (fun c => (s, c)))

/-- Group key of the monthly view: (Year, Month) from the calendar side. -/
def ymKey (sc : SalesRow × CalendarRow) : Int × Int :=
  (sc.2.Year, sc.2.Month)

/-- Ascending (Year, Month) order on monthly rows, the final
`sort_values` on Year then Month. -/
def monthlyLe (a b : MonthlyRow) : Prop :=
  a.Year < b.Year ∨ (a.Year = b.Year ∧ a.Month ≤ b.Month)

instance : DecidableRel monthlyLe := by
  intro a b
  unfold monthlyLe
  infer_instance

/-- create_time_series_analysis (lines 75-105): inner-join sales and
calendar on OrderDate = Date, group by (Year, Month), aggregate, and sort
ascending by (Year, Month). -/
def monthlyAgg (k : Int × Int) (g : List (SalesRow × CalendarRow)) :
    MonthlyRow :=
  { Year := k.1, Month := k.2,
    MonthlySales := optSum (g.map (fun sc => sc.1.SalesAmount)),
    OrderCount := g.length,
    AvgOrderValue := optMean (g.map (fun sc => sc.1.SalesAmount)) }

def create_time_series_analysis (sales : List SalesRow)
    (calendar : List CalendarRow) : List MonthlyRow :=
  let joined := joinSalesCalendar sales calendar
  List.insertionSort monthlyLe (aggregate ymLe ymKey monthlyAgg joined)

/-- Linear-interpolation quantile of a sorted nonempty list, the numpy /
pandas default: for fraction f, with h = f * (n - 1), the value is
x_i + (h - i) * (x_(i+1) - x_i) where i = floor h. -/
def quantileAt (xs : List ℚ) (f : ℚ) : ℚ :=
  let n := xs.length
  let h : ℚ := f * ((n : ℚ) - 1)
  let i : Nat := (⌊h⌋).toNat
  let lo := xs.getD i 0
  let hi := xs.getD (i + 1) lo
  lo + (h - (i : ℚ)) * (hi - lo)

/-- Quartile bin edges used by `pd.qcut(col, q=4)`: the 0, 25, 50, 75 and
100 percent quantiles of the column. -/
def qcutEdges (xs : List ℚ) : List ℚ :=
  let sorted := List.insertionSort (fun a b : ℚ => a ≤ b) xs
  [0, 1 / 4, 1 / 2, 3 / 4, 1].map (quantileAt sorted)

/-- Label of a value given the five bin edges: the first bin keeps its left
edge (`include_lowest` behaviour of qcut on the minimum), the others are
left-open right-closed. -/
def segmentLabel (edges : List ℚ) (v : ℚ) : String :=
  if v ≤ edges.getD 1 0 then ("Low")
  else if v ≤ edges.getD 2 0 then ("Medium")
  else if v ≤ edges.getD 3 0 then ("High")
  else ("Premium")

/-- create_customer_segments (visualize.py lines 80-93), up to the qcut
call that decides success: quartile-bin TotalSpend with
`pd.qcut` with q = 4 and the labels Low, Medium, High, Premium.  With the
default duplicates=raise policy, qcut raises a ValueError when the computed
bin edges are not all distinct; otherwise every customer is assigned a
segment label. -/
def create_customer_segments (view : List InsightsRow) :
    Except PandasError (List (Int × String)) :=
  let edges := qcutEdges (view.map (fun r => r.TotalSpend))
  if edges.Nodup then
    .ok (view.map (fun r => (r.CustomerKey, segmentLabel edges r.TotalSpend)))
  else .error .valueError

/-- Rows of the sales/products join falling in the group with key k. -/
def summaryGroup (sales : List SalesRow) (products : List ProductRow)
    (k : Int × String × String) : List (SalesRow × ProductRow) :=
  (joinSalesProducts sales products).filter (fun sp => decide (summaryKey sp = k))

/-- Rows of the sales/customers join falling in the group with key k. -/
def insightsGroup (customers : List CustomerRow) (sales : List SalesRow)
    (k : Int × String × String × String × String) :
    List (SalesRow × CustomerRow) :=
  (joinSalesCustomers sales customers).filter
    (fun sc => decide (insightsKey sc = k))

/-- Rows of the sales/calendar join falling in the month with key ym. -/
def monthlyGroup (sales : List SalesRow) (calendar : List CalendarRow)
    (ym : Int × Int) : List (SalesRow × CalendarRow) :=
  (joinSalesCalendar sales calendar).filter (fun sc => decide (ymKey sc = ym))

/-- Concrete bronze product used by the worked examples. -/
def exRawProduct : RawProduct :=
  { ProductKey := 1, ProductName := some ("P"), ModelName := some ("M"),
    ProductSubcategoryKey := some (-1), ProductPrice := 10 }

/-- Concrete bronze sales row: quantity 2 of product 1. -/
def exRawSales1 : RawSales :=
  { OrderDate := ⟨2015, 1, 1⟩, StockDate := ⟨2015, 1, 1⟩,
    OrderNumber := "SO1", ProductKey := 1, CustomerKey := 1,
    TerritoryKey := 1, OrderLineItem := 1, OrderQuantity := 2 }

/-- Concrete bronze sales row: quantity 3 of product 1. -/
def exRawSales2 : RawSales :=
  { OrderDate := ⟨2015, 1, 1⟩, StockDate := ⟨2015, 1, 1⟩,
    OrderNumber := "SO2", ProductKey := 1, CustomerKey := 1,
    TerritoryKey := 1, OrderLineItem := 2, OrderQuantity := 3 }

/-- The silver sales table of the worked example (price 10 per unit). -/
def exSilverSales : List SalesRow :=
  merge_product_prices [exRawSales1, exRawSales2] [exRawProduct]

/-- The silver product table of the worked example. -/
def exSilverProducts : List ProductRow := process_product_data [exRawProduct]

/-- The silver calendar table of the worked example: January 2015 only. -/
def exSilverCalendar : List CalendarRow := process_calendar_data [⟨2015, 1, 1⟩]

/-- Customer table for the null-handling counterexample. -/
def cxCustomers : List CustomerRow :=
  [{ CustomerKey := 1, FirstName := "A", LastName := "B",
     Gender := "F", MaritalStatus := "M" }]

/-- Bronze sales row referencing a product key (99) with no product. -/
def cxRawSalesA : RawSales :=
  { OrderDate := ⟨2015, 1, 1⟩, StockDate := ⟨2015, 1, 1⟩,
    OrderNumber := "SO3", ProductKey := 99, CustomerKey := 1,
    TerritoryKey := 1, OrderLineItem := 1, OrderQuantity := 1 }

/-- Bronze sales row of product 1, which is priced at 0. -/
def cxRawSalesB : RawSales :=
  { OrderDate := ⟨2015, 1, 1⟩, StockDate := ⟨2015, 1, 1⟩,
    OrderNumber := "SO4", ProductKey := 1, CustomerKey := 1,
    TerritoryKey := 1, OrderLineItem := 1, OrderQuantity := 3 }

/-- Bronze product table with a single zero-priced product. -/
def cxRawProducts : List RawProduct :=
  [{ ProductKey := 1, ProductName := some ("P"), ModelName := some ("M"),
     ProductSubcategoryKey := some (-1), ProductPrice := 0 }]

/-- Silver sales table mixing a null-metric row (unmatched product) with a
zero-amount row. -/
def cxSilver : List SalesRow :=
  merge_product_prices [cxRawSalesA, cxRawSalesB] cxRawProducts

/-- A two-row customer-insights view with distinct spends 10 and 20. -/
def cxView2 : List InsightsRow :=
  [{ CustomerKey := 1, FirstName := "A", LastName := "B", Gender := "F",
     MaritalStatus := "M", TotalSpend := 10, OrderCount := 1,
     AvgOrderValue := some 10 },
   { CustomerKey := 2, FirstName := "C", LastName := "D", Gender := "F",
     MaritalStatus := "S", TotalSpend := 20, OrderCount := 1,
     AvgOrderValue := some 20 }]

/-- The lone silver product row of the worked example. -/
def exProductRow : ProductRow :=
  { ProductKey := 1, ProductName := "P", ModelName := "M",
    ProductSubcategoryKey := -1, ProductPrice := 10 }

/-- The gold monthly row of the worked example. -/
def exMonthlyRow : MonthlyRow :=
  { Year := 2015, Month := 1, MonthlySales := 50, OrderCount := 2,
    AvgOrderValue := some 25 }

/-- The gold sales-summary row of the worked example. -/
def exSummaryRow : SummaryRow :=
  { ProductKey := 1, ProductName := "P", ModelName := "M",
    TotalQuantity := 5, TotalSales := 50, AvgUnitPrice := some 10,
    OrderCount := 2 }

theorem mem_insertionSort_iff {α : Type} (r : α → α → Prop) [DecidableRel r]
    (l : List α) (a : α) : a ∈ List.insertionSort r l ↔ a ∈ l :=
  (List.perm_insertionSort r l).mem_iff

theorem sum_map_insertionSort {α M : Type} [AddCommMonoid M]
    (r : α → α → Prop) [DecidableRel r] (l : List α) (f : α → M) :
    ((List.insertionSort r l).map f).sum = (l.map f).sum :=
  ((List.perm_insertionSort r l).map f).sum_eq

theorem mem_aggregate {ρ κ σ : Type} [DecidableEq κ] {keyLe : κ → κ → Prop}
    [DecidableRel keyLe] {keyOf : ρ → κ} {mk : κ → List ρ → σ}
    {rows : List ρ} {s : σ} (hs : s ∈ aggregate keyLe keyOf mk rows) :
    ∃ k, k ∈ (rows.map keyOf).dedup ∧
      s = mk k (rows.filter (fun r => decide (keyOf r = k))) := by
  unfold aggregate at hs
  rcases List.mem_map.mp hs with ⟨k, hk, hmk⟩
  exact ⟨k, (List.perm_insertionSort keyLe _).mem_iff.mp hk, hmk.symm⟩

theorem aggregate_map_key {ρ κ σ : Type} [DecidableEq κ]
    (keyLe : κ → κ → Prop) [DecidableRel keyLe] (keyOf : ρ → κ)
    (mk : κ → List ρ → σ) (f : σ → κ) (rows : List ρ)
    (hf : ∀ k g, f (mk k g) = k) :
    (aggregate keyLe keyOf mk rows).map f
      = List.insertionSort keyLe ((rows.map keyOf).dedup) := by
  unfold aggregate
  rw [List.map_map]
  have : ∀ k ∈ List.insertionSort keyLe ((rows.map keyOf).dedup),
      (f ∘ fun k => mk k (rows.filter (fun r => decide (keyOf r = k)))) k
        = id k := by
    intro k _
    simpa using hf k _
  rw [List.map_congr_left this, List.map_id]

theorem sum_map_partition {ρ κ M : Type} [DecidableEq κ] [AddCommMonoid M]
    (keyOf : ρ → κ) (f : ρ → M) :
    ∀ ks : List κ, ks.Nodup → ∀ rows : List ρ,
      (∀ r ∈ rows, keyOf r ∈ ks) →
      (ks.map (fun k =>
          ((rows.filter (fun r => decide (keyOf r = k))).map f).sum)).sum
        = (rows.map f).sum := by
  intro ks
  induction ks with
  | nil =>
    intro _ rows hcov
    cases rows with
    | nil => simp
    | cons r rs => exact absurd (hcov r (List.mem_cons_self r rs)) (by simp)
  | cons k ks ih =>
    intro hnd rows hcov
    have hk : k ∉ ks := (List.nodup_cons.mp hnd).1
    have hnd2 : ks.Nodup := (List.nodup_cons.mp hnd).2
    have hsplit : ((rows.filter (fun r => decide (keyOf r = k))).map f).sum
        + ((rows.filter (fun r => !decide (keyOf r = k))).map f).sum
        = (rows.map f).sum := by
      have h2 := ((List.filter_append_perm
        (fun r => decide (keyOf r = k)) rows).map f).sum_eq
      rw [List.map_append, List.sum_append] at h2
      exact h2
    have hcov2 : ∀ r ∈ rows.filter (fun r => !decide (keyOf r = k)),
        keyOf r ∈ ks := by
      intro r hr
      have hrr := List.mem_filter.mp hr
      have hne : ¬ keyOf r = k := by simpa using hrr.2
      rcases List.mem_cons.mp (hcov r hrr.1) with h | h
      · exact absurd h hne
      · exact h
    have hfe : ∀ k2 ∈ ks,
        ((rows.filter (fun r => !decide (keyOf r = k))).filter
            (fun r => decide (keyOf r = k2)))
          = rows.filter (fun r => decide (keyOf r = k2)) := by
      intro k2 hk2
      rw [List.filter_filter]
      apply List.filter_congr
      intro r _
      by_cases h : keyOf r = k2
      · have hne : ¬ keyOf r = k := fun hh => hk ((h.symm.trans hh) ▸ hk2)
        have hne2 : ¬ k2 = k := fun hh => hk (hh ▸ hk2)
        simp [h, hne, hne2]
      · simp [h]
    have hmap : ks.map (fun k2 =>
          ((rows.filter (fun r => decide (keyOf r = k2))).map f).sum)
        = ks.map (fun k2 =>
          (((rows.filter (fun r => !decide (keyOf r = k))).filter
              (fun r => decide (keyOf r = k2))).map f).sum) :=
      List.map_congr_left (fun k2 hk2 => by rw [hfe k2 hk2])
    rw [List.map_cons, List.sum_cons, hmap,
      ih hnd2 (rows.filter (fun r => !decide (keyOf r = k))) hcov2]
    exact hsplit

theorem filterMap_id_length {α : Type} :
    ∀ l : List (Option α), (∀ x ∈ l, x.isSome) →
      (l.filterMap id).length = l.length := by
  intro l
  induction l with
  | nil => simp
  | cons x xs ih =>
    intro h
    cases x with
    | none => exact absurd (h none (List.mem_cons_self _ _)) (by simp)
    | some v =>
      simp only [List.filterMap_cons, id, List.length_cons]
      rw [ih (fun y hy => h y (List.mem_cons_of_mem _ hy))]

/-- C6: for every silver sales and product input, the sum of TotalQuantity
over all groups of the Sales Summary view equals the sum of OrderQuantity
over all rows of the inner join of sales and products. -/
theorem total_quantity_preserved (sales : List SalesRow)
    (products : List ProductRow) :
    ((create_sales_summary sales products).map
        (fun row => row.TotalQuantity)).sum
      = ((joinSalesProducts sales products).map
        (fun sp => sp.1.OrderQuantity)).sum := by
  simp only [create_sales_summary]
  rw [sum_map_insertionSort]
  unfold aggregate
  rw [List.map_map, sum_map_insertionSort]
  exact sum_map_partition summaryKey (fun sp => sp.1.OrderQuantity) _
    (List.nodup_dedup _) _
    (fun r hr => List.mem_dedup.mpr (List.mem_map_of_mem _ hr))

/-- C1: the Sales Summary gold view groups the inner join of sales and
products by (ProductKey, ProductName, ModelName); per group TotalQuantity
is the sum of OrderQuantity, TotalSales the sum of SalesAmount,
AvgUnitPrice the mean of UnitPrice and OrderCount the number of joined
rows; the output is sorted by TotalSales descending; and the two example
sales rows (ProductKey 1, quantities 2 and 3, price 10) produce the row
with TotalQuantity 5, TotalSales 50, AvgUnitPrice 10, OrderCount 2. -/
theorem sales_summary_spec :
    (∀ (sales : List SalesRow) (products : List ProductRow),
      (∀ row ∈ create_sales_summary sales products,
        row.TotalQuantity = ((summaryGroup sales products
            (row.ProductKey, row.ProductName, row.ModelName)).map
            (fun sp => sp.1.OrderQuantity)).sum ∧
        row.TotalSales = optSum ((summaryGroup sales products
            (row.ProductKey, row.ProductName, row.ModelName)).map
            (fun sp => sp.1.SalesAmount)) ∧
        row.AvgUnitPrice = optMean ((summaryGroup sales products
            (row.ProductKey, row.ProductName, row.ModelName)).map
            (fun sp => sp.1.UnitPrice)) ∧
        row.OrderCount = (summaryGroup sales products
            (row.ProductKey, row.ProductName, row.ModelName)).length) ∧
      List.Pairwise (fun a b : SummaryRow => b.TotalSales ≤ a.TotalSales)
        (create_sales_summary sales products)) ∧
    create_sales_summary exSilverSales exSilverProducts = [exSummaryRow] := by
  refine ⟨fun sales products => ⟨?_, ?_⟩, ?_⟩
  · intro row hrow
    simp only [create_sales_summary] at hrow
    have h2 := (List.perm_insertionSort _ _).mem_iff.mp hrow
    rcases mem_aggregate h2 with ⟨k, _, rfl⟩
    exact ⟨rfl, rfl, rfl, rfl⟩
  · simp only [create_sales_summary]
    exact @List.sorted_insertionSort SummaryRow
      (fun a b => b.TotalSales ≤ a.TotalSales) (fun a b => inferInstance)
      ⟨fun a b => le_total _ _⟩ ⟨fun a b c h1 h2 => le_trans h2 h1⟩ _
  · norm_num [create_sales_summary, aggregate, joinSalesProducts, summaryKey,
      summaryAgg, exSilverSales, exSilverProducts, merge_product_prices,
      mkSalesRow, process_product_data, exRawProduct, exRawSales1,
      exRawSales2, exSummaryRow, optSum, optMean, List.insertionSort,
      List.orderedInsert, List.filterMap_cons, List.sum_cons]

/-- Witness for sales_summary_spec: the per-group formulas instantiated at
the worked example row. -/
theorem sales_summary_spec_witness :
    exSummaryRow.TotalQuantity
      = ((summaryGroup exSilverSales exSilverProducts
          (exSummaryRow.ProductKey, exSummaryRow.ProductName,
            exSummaryRow.ModelName)).map
          (fun sp => sp.1.OrderQuantity)).sum ∧
    exSummaryRow.TotalSales
      = optSum ((summaryGroup exSilverSales exSilverProducts
          (exSummaryRow.ProductKey, exSummaryRow.ProductName,
            exSummaryRow.ModelName)).map (fun sp => sp.1.SalesAmount)) ∧
    exSummaryRow.AvgUnitPrice
      = optMean ((summaryGroup exSilverSales exSilverProducts
          (exSummaryRow.ProductKey, exSummaryRow.ProductName,
            exSummaryRow.ModelName)).map (fun sp => sp.1.UnitPrice)) ∧
    exSummaryRow.OrderCount
      = (summaryGroup exSilverSales exSilverProducts
          (exSummaryRow.ProductKey, exSummaryRow.ProductName,
            exSummaryRow.ModelName)).length :=
  (sales_summary_spec.1 exSilverSales exSilverProducts).1 exSummaryRow
    (by rw [sales_summary_spec.2]; exact List.mem_singleton_self _)

theorem mkSalesRow_fields (r : RawSales) (P : ℚ) :
    (mkSalesRow r (some P)).UnitPrice = some P ∧
    (mkSalesRow r (some P)).SalesAmount
      = some ((r.OrderQuantity : ℚ) * P) ∧
    (mkSalesRow r (some P)).TotalProductCost
      = some (((r.OrderQuantity : ℚ) * P) * (7 / 10)) ∧
    (mkSalesRow r (some P)).Profit
      = some ((r.OrderQuantity : ℚ) * P
        - ((r.OrderQuantity : ℚ) * P) * (7 / 10)) ∧
    (mkSalesRow r (some P)).ProfitMargin
      = if (r.OrderQuantity : ℚ) * P = 0 then none
        else some (((r.OrderQuantity : ℚ) * P
            - ((r.OrderQuantity : ℚ) * P) * (7 / 10))
          / ((r.OrderQuantity : ℚ) * P)) :=
  ⟨rfl, rfl, rfl, rfl, rfl⟩

theorem mem_merge_product_prices {raws : List RawSales}
    {products : List RawProduct} {row : SalesRow}
    (h : row ∈ merge_product_prices raws products) :
    ∃ s ∈ raws, row = mkSalesRow s none ∨
      ∃ p ∈ products, row = mkSalesRow s (some p.ProductPrice) := by
  unfold merge_product_prices at h
  rcases List.mem_flatMap.mp h with ⟨s, hs, hrow⟩
  refine ⟨s, hs, ?_⟩
  cases hf : products.filter (fun p => decide (p.ProductKey = s.ProductKey)) with
  | nil =>
    rw [hf] at hrow
    simp only [List.mem_singleton] at hrow
    exact Or.inl hrow
  | cons p ps =>
    rw [hf] at hrow
    rcases List.mem_map.mp hrow with ⟨q, hq, hrow2⟩
    have hq2 : q ∈ products := by
      have : q ∈ products.filter
          (fun p => decide (p.ProductKey = s.ProductKey)) := by
        rw [hf]; exact hq
      exact (List.mem_filter.mp this).1
    exact Or.inr ⟨q, hq2, hrow2.symm⟩

/-- C2: every silver sales row with a non-null UnitPrice satisfies
SalesAmount = OrderQuantity * UnitPrice, TotalProductCost = 0.7 *
SalesAmount, Profit = SalesAmount - TotalProductCost and ProfitMargin =
Profit / SalesAmount, the margin being NaN (none) when SalesAmount is 0. -/
theorem silver_sales_metric_formulas :
    ∀ (y2015 y2016 y2017 : Option (List RawSales))
      (products : List RawProduct) (out : List SalesRow),
      process_sales_data y2015 y2016 y2017 products = some out →
      ∀ row ∈ out, ∀ q : ℚ, row.UnitPrice = some q →
        row.SalesAmount = some ((row.OrderQuantity : ℚ) * q) ∧
        row.TotalProductCost
          = some ((7 / 10) * ((row.OrderQuantity : ℚ) * q)) ∧
        row.Profit = some ((row.OrderQuantity : ℚ) * q
            - (7 / 10) * ((row.OrderQuantity : ℚ) * q)) ∧
        ((row.OrderQuantity : ℚ) * q = 0 → row.ProfitMargin = none) ∧
        ((row.OrderQuantity : ℚ) * q ≠ 0 → row.ProfitMargin
            = some (((row.OrderQuantity : ℚ) * q
                - (7 / 10) * ((row.OrderQuantity : ℚ) * q))
              / ((row.OrderQuantity : ℚ) * q))) := by
  intro y1 y2 y3 products out hout row hrow q hq
  have hmem : row ∈ merge_product_prices
      (([y1, y2, y3].filterMap id).flatten) products := by
    unfold process_sales_data at hout
    by_cases hp : ([y1, y2, y3].filterMap id).isEmpty
    · rw [if_pos hp] at hout; cases hout
    · rw [if_neg hp] at hout
      cases hout
      exact hrow
  rcases mem_merge_product_prices hmem with ⟨s, _, hcase | ⟨p, _, hcase⟩⟩
  · subst hcase
    simp [mkSalesRow] at hq
  · subst hcase
    have hpq : p.ProductPrice = q := by simpa [mkSalesRow] using hq
    subst hpq
    have hOQ : (mkSalesRow s (some p.ProductPrice)).OrderQuantity
        = s.OrderQuantity := rfl
    rw [hOQ]
    refine ⟨(mkSalesRow_fields s p.ProductPrice).2.1, ?_, ?_, ?_, ?_⟩
    · rw [(mkSalesRow_fields s p.ProductPrice).2.2.1]
      exact congrArg some (by ring)
    · rw [(mkSalesRow_fields s p.ProductPrice).2.2.2.1]
      exact congrArg some (by ring)
    · intro h0
      rw [(mkSalesRow_fields s p.ProductPrice).2.2.2.2, if_pos h0]
    · intro hne
      rw [(mkSalesRow_fields s p.ProductPrice).2.2.2.2, if_neg hne]
      exact congrArg some (by ring)

/-- Witness for silver_sales_metric_formulas: the quantity-2, price-10
example row has SalesAmount 20, cost 14, profit 6 and margin 6/20. -/
theorem silver_sales_metric_formulas_witness :
    (mkSalesRow exRawSales1 (some 10)).SalesAmount
      = some (((mkSalesRow exRawSales1 (some 10)).OrderQuantity : ℚ) * 10) ∧
    (mkSalesRow exRawSales1 (some 10)).TotalProductCost
      = some ((7 / 10)
        * (((mkSalesRow exRawSales1 (some 10)).OrderQuantity : ℚ) * 10)) ∧
    (mkSalesRow exRawSales1 (some 10)).Profit
      = some (((mkSalesRow exRawSales1 (some 10)).OrderQuantity : ℚ) * 10
        - (7 / 10)
          * (((mkSalesRow exRawSales1 (some 10)).OrderQuantity : ℚ) * 10)) ∧
    (mkSalesRow exRawSales1 (some 10)).ProfitMargin
      = some ((((mkSalesRow exRawSales1 (some 10)).OrderQuantity : ℚ) * 10
          - (7 / 10)
            * (((mkSalesRow exRawSales1 (some 10)).OrderQuantity : ℚ) * 10))
        / (((mkSalesRow exRawSales1 (some 10)).OrderQuantity : ℚ) * 10)) := by
  have h := silver_sales_metric_formulas (some [exRawSales1, exRawSales2])
    none none [exRawProduct] exSilverSales rfl
    (mkSalesRow exRawSales1 (some 10))
    (by
      simp [exSilverSales, merge_product_prices, exRawProduct, exRawSales1,
        exRawSales2])
    10 rfl
  exact ⟨h.1, h.2.1, h.2.2.1, h.2.2.2.2 (by norm_num [mkSalesRow, exRawSales1])⟩

/-- Counterexample to C4 as stated: with no yearly sales file present the
loader does not fail with an error — its exception channel is `.ok` with
the sales table absent, and the whole bronze-to-silver run still completes
successfully. -/
theorem sales_loader_no_error_counterexample :
    process_sales_data_outcome none none none [] = .ok none ∧
    process_sales_data none none none [] = none ∧
    bronze_to_silver_main [] [] [] none none none
      = .ok ([], [], [], none) :=
  ⟨rfl, rfl, rfl⟩

/-- C4 (amended): the sales loader merges whichever yearly files exist
into one table (absent years are just omitted from the concatenation) and
produces a table exactly when at least one file exists; when none exist it
raises no error either — it returns None (no table) and the
bronze-to-silver run completes successfully, the sales step never being
the one to abort the stage. -/
theorem sales_loader_merge_policy :
    (∀ (y1 y2 y3 : Option (List RawSales)) (products : List RawProduct),
        (process_sales_data y1 y2 y3 products).isSome
          ↔ (y1.isSome ∨ y2.isSome ∨ y3.isSome)) ∧
    (∀ (y1 y2 y3 : Option (List RawSales)) (products : List RawProduct)
        (out : List SalesRow),
        process_sales_data y1 y2 y3 products = some out →
        out = merge_product_prices (([y1, y2, y3].filterMap id).flatten)
          products) ∧
    (∀ (a c : List RawSales) (products : List RawProduct),
        process_sales_data (some a) none (some c) products
          = some (merge_product_prices (a ++ c) products)) ∧
    (∀ products : List RawProduct,
        process_sales_data none none none products = none) ∧
    (∀ (y1 y2 y3 : Option (List RawSales)) (products : List RawProduct),
        process_sales_data_outcome y1 y2 y3 products
          = .ok (process_sales_data y1 y2 y3 products)) ∧
    (∀ (dates : List Timestamp) (customers : List RawCustomer)
        (products : List RawProduct)
        (y1 y2 y3 : Option (List RawSales)) (outc : List CustomerRow),
        process_customer_data customers = .ok outc →
        bronze_to_silver_main dates customers products y1 y2 y3
          = .ok (process_calendar_data dates, outc,
              process_product_data products,
              process_sales_data y1 y2 y3 products)) := by
  refine ⟨?_, ?_, ?_, ?_, ?_, ?_⟩
  · intro y1 y2 y3 products
    cases y1 <;> cases y2 <;> cases y3 <;> simp [process_sales_data]
  · intro y1 y2 y3 products out hout
    unfold process_sales_data at hout
    by_cases hp : ([y1, y2, y3].filterMap id).isEmpty
    · rw [if_pos hp] at hout; cases hout
    · rw [if_neg hp] at hout
      cases hout
      rfl
  · intro a c products
    simp [process_sales_data]
  · intro products
    simp [process_sales_data]
  · intro y1 y2 y3 products
    by_cases hp : ([y1, y2, y3].filterMap id).isEmpty
    · simp [process_sales_data_outcome, process_sales_data, hp]
    · simp [process_sales_data_outcome, process_sales_data, hp]
  · intro dates customers products y1 y2 y3 outc houtc
    simp only [bronze_to_silver_main, houtc]

/-- Witness for sales_loader_merge_policy: with only the 2015 file
present the output is the merge of just that file, and with no sales file
at all the silver run still ends in success. -/
theorem sales_loader_merge_policy_witness :
    exSilverSales = merge_product_prices
        (([some [exRawSales1, exRawSales2], none, none].filterMap id).flatten)
        [exRawProduct] ∧
    bronze_to_silver_main [] [] [] none none none
      = .ok ([], [], [], none) :=
  ⟨sales_loader_merge_policy.2.1 (some [exRawSales1, exRawSales2]) none none
      [exRawProduct] exSilverSales rfl,
    sales_loader_merge_policy.2.2.2.2.2 [] [] [] none none none [] rfl⟩

/-- C7: the silver sales-to-product join is a left join — every raw sales
row appears in the silver output, an unmatched row is kept with a null
price and null derived metrics — whereas the gold join is inner: a sales
row with no matching product never appears in the joined table. -/
theorem silver_left_join_vs_gold_inner :
    (∀ (raws : List RawSales) (products : List RawProduct), ∀ r ∈ raws,
        ∃ price, mkSalesRow r price ∈ merge_product_prices raws products) ∧
    (∀ (raws : List RawSales) (products : List RawProduct), ∀ r ∈ raws,
        (∀ p ∈ products, p.ProductKey ≠ r.ProductKey) →
        mkSalesRow r none ∈ merge_product_prices raws products) ∧
    (∀ r : RawSales,
        (mkSalesRow r none).UnitPrice = none ∧
        (mkSalesRow r none).SalesAmount = none ∧
        (mkSalesRow r none).TotalProductCost = none ∧
        (mkSalesRow r none).Profit = none ∧
        (mkSalesRow r none).ProfitMargin = none) ∧
    (∀ (sales : List SalesRow) (products : List ProductRow) (s : SalesRow),
        (∀ p ∈ products, p.ProductKey ≠ s.ProductKey) →
        ∀ p : ProductRow, (s, p) ∉ joinSalesProducts sales products) := by
  refine ⟨?_, ?_, ?_, ?_⟩
  · intro raws products r hr
    unfold merge_product_prices
    cases hf : products.filter
        (fun p => decide (p.ProductKey = r.ProductKey)) with
    | nil =>
      refine ⟨none, List.mem_flatMap.mpr ⟨r, hr, ?_⟩⟩
      rw [hf]
      simp
    | cons p ps =>
      refine ⟨some p.ProductPrice, List.mem_flatMap.mpr ⟨r, hr, ?_⟩⟩
      rw [hf]
      exact List.mem_map.mpr ⟨p, List.mem_cons_self _ _, rfl⟩
  · intro raws products r hr hno
    have hf : products.filter (fun p => decide (p.ProductKey = r.ProductKey))
        = [] :=
      List.filter_eq_nil_iff.mpr (fun p hp => by simp [hno p hp])
    unfold merge_product_prices
    refine List.mem_flatMap.mpr ⟨r, hr, ?_⟩
    rw [hf]
    simp
  · intro r
    exact ⟨rfl, rfl, rfl, rfl, rfl⟩
  · intro sales products s hno p hmem
    unfold joinSalesProducts at hmem
    rcases List.mem_flatMap.mp hmem with ⟨s2, _, hmem2⟩
    rcases List.mem_map.mp hmem2 with ⟨p2, hp2, heq⟩
    have hs2 : s2 = s := congrArg Prod.fst heq
    have hp2e : p2 = p := congrArg Prod.snd heq
    have hfil := List.mem_filter.mp hp2
    have hkey : p2.ProductKey = s2.ProductKey := by simpa using hfil.2
    exact hno p2 hfil.1 (by rw [hkey, hs2])

/-- Witness for silver_left_join_vs_gold_inner: the product-99 row is kept
with null metrics in silver but never joins in gold. -/
theorem silver_left_join_vs_gold_inner_witness :
    mkSalesRow cxRawSalesA none
      ∈ merge_product_prices [cxRawSalesA, cxRawSalesB] cxRawProducts ∧
    (mkSalesRow cxRawSalesA none).SalesAmount = none ∧
    (mkSalesRow cxRawSalesA none, exProductRow)
      ∉ joinSalesProducts cxSilver exSilverProducts := by
  refine ⟨?_, ?_, ?_⟩
  · exact silver_left_join_vs_gold_inner.2.1 [cxRawSalesA, cxRawSalesB]
      cxRawProducts cxRawSalesA (List.mem_cons_self _ _)
      (by simp [cxRawProducts, cxRawSalesA])
  · exact (silver_left_join_vs_gold_inner.2.2.1 cxRawSalesA).2.1
  · exact silver_left_join_vs_gold_inner.2.2.2 cxSilver exSilverProducts
      (mkSalesRow cxRawSalesA none)
      (by simp [exSilverProducts, process_product_data, exRawProduct,
        mkSalesRow, cxRawSalesA])
      exProductRow

/-- C5: the Monthly Sales view has exactly one row per distinct
(Year, Month) of the sales/calendar join, its rows are strictly ascending
by (Year, Month), and each OrderCount is the row count of the join for
that month. -/
theorem monthly_sales_view_shape :
    ∀ (sales : List SalesRow) (calendar : List CalendarRow),
      ((create_time_series_analysis sales calendar).map
          (fun m => (m.Year, m.Month))).Nodup ∧
      (∀ ym : Int × Int,
        ym ∈ (create_time_series_analysis sales calendar).map
            (fun m => (m.Year, m.Month))
          ↔ ym ∈ (joinSalesCalendar sales calendar).map ymKey) ∧
      List.Pairwise (fun a b : MonthlyRow =>
          a.Year < b.Year ∨ (a.Year = b.Year ∧ a.Month < b.Month))
        (create_time_series_analysis sales calendar) ∧
      (∀ row ∈ create_time_series_analysis sales calendar,
        row.OrderCount
          = (monthlyGroup sales calendar (row.Year, row.Month)).length) := by
  intro sales calendar
  have hview : create_time_series_analysis sales calendar
      = List.insertionSort monthlyLe (aggregate ymLe ymKey monthlyAgg
          (joinSalesCalendar sales calendar)) := rfl
  have hperm : ((create_time_series_analysis sales calendar).map
      (fun m => (m.Year, m.Month))).Perm
      (((joinSalesCalendar sales calendar).map ymKey).dedup) := by
    rw [hview]
    have h1 := (List.perm_insertionSort monthlyLe (aggregate ymLe ymKey
        monthlyAgg (joinSalesCalendar sales calendar))).map
        (fun m => (m.Year, m.Month))
    have h2 := aggregate_map_key ymLe ymKey monthlyAgg
        (fun m => (m.Year, m.Month)) (joinSalesCalendar sales calendar)
        (fun k g => rfl)
    rw [h2] at h1
    exact h1.trans (List.perm_insertionSort _ _)
  have hnodup : ((create_time_series_analysis sales calendar).map
      (fun m => (m.Year, m.Month))).Nodup :=
    hperm.nodup_iff.mpr (List.nodup_dedup _)
  refine ⟨hnodup, ?_, ?_, ?_⟩
  · intro ym
    exact hperm.mem_iff.trans List.mem_dedup
  · have hs : List.Pairwise monthlyLe
        (create_time_series_analysis sales calendar) := by
      rw [hview]
      exact @List.sorted_insertionSort MonthlyRow monthlyLe inferInstance
        ⟨fun a b => by unfold monthlyLe; omega⟩
        ⟨fun a b c h1 h2 => by unfold monthlyLe at h1 h2 ⊢; omega⟩ _
    have hne : List.Pairwise (fun a b : MonthlyRow =>
        (a.Year, a.Month) ≠ (b.Year, b.Month))
        (create_time_series_analysis sales calendar) :=
      List.pairwise_map.mp hnodup
    refine (hs.and hne).imp ?_
    intro a b h
    obtain ⟨h1, h2⟩ := h
    unfold monthlyLe at h1
    rw [ne_eq, Prod.mk.injEq] at h2
    omega
  · intro row hrow
    rw [hview] at hrow
    have h2 := (List.perm_insertionSort _ _).mem_iff.mp hrow
    rcases mem_aggregate h2 with ⟨k, _, rfl⟩
    rfl

/-- Witness for monthly_sales_view_shape: the January 2015 row of the
worked example counts its two joined rows. -/
theorem monthly_sales_view_shape_witness :
    exMonthlyRow.OrderCount
      = (monthlyGroup exSilverSales exSilverCalendar
          (exMonthlyRow.Year, exMonthlyRow.Month)).length :=
  ((monthly_sales_view_shape exSilverSales exSilverCalendar).2.2.2)
    exMonthlyRow (by norm_num [create_time_series_analysis, aggregate,
      joinSalesCalendar, ymKey, monthlyAgg, monthlyLe, exSilverSales,
      exSilverCalendar, merge_product_prices, mkSalesRow, exRawProduct,
      exRawSales1, exRawSales2, process_calendar_data, exMonthlyRow, optSum,
      optMean, List.insertionSort, List.orderedInsert, List.filterMap_cons,
      List.sum_cons])

theorem astype_int_cases (v : RawValue) :
    (v.numeric ∧ ∃ n, astype_int v = .ok n) ∨
    (¬ v.numeric ∧ astype_int v = .error .typeError) := by
  cases v with
  | num n => exact Or.inl ⟨trivial, n, rfl⟩
  | str s =>
    cases h : s.toInt? with
    | none =>
      exact Or.inr ⟨by simp [RawValue.numeric, h], by simp [astype_int, h]⟩
    | some n =>
      exact Or.inl ⟨by simp [RawValue.numeric, h], n, by simp [astype_int, h]⟩
  | null => exact Or.inr ⟨by simp [RawValue.numeric], rfl⟩

theorem process_customer_error_eq :
    ∀ (rows : List RawCustomer) (e : PandasError),
      process_customer_data rows = .error e → e = .typeError := by
  intro rows
  induction rows with
  | nil => intro e h; simp [process_customer_data] at h
  | cons r rs ih =>
    intro e h
    rcases astype_int_cases r.CustomerKey with ⟨_, n, hok⟩ | ⟨_, herr⟩
    · simp only [process_customer_data, hok] at h
      cases hpr : process_customer_data rs with
      | error e2 =>
        rw [hpr] at h
        injection h with h2
        exact h2 ▸ ih e2 hpr
      | ok out =>
        rw [hpr] at h
        cases h
    · simp only [process_customer_data, herr] at h
      injection h with h2
      exact h2.symm

/-- C8: the customer transformer fails with a TypeError exactly when some
CustomerKey cell is non-numeric; on all-numeric input it succeeds, coerces
each key to an integer and fills missing Gender / MaritalStatus with the
literal "Unknown". -/
theorem customer_coercion_and_fill :
    (∀ rows : List RawCustomer,
        process_customer_data rows = .error .typeError
          ↔ ∃ r ∈ rows, ¬ r.CustomerKey.numeric) ∧
    (∀ rows : List RawCustomer, (∀ r ∈ rows, r.CustomerKey.numeric) →
        ∃ out, process_customer_data rows = .ok out ∧
          List.Forall₂ (fun (r : RawCustomer) (o : CustomerRow) =>
            astype_int r.CustomerKey = .ok o.CustomerKey ∧
            o.FirstName = r.FirstName ∧ o.LastName = r.LastName ∧
            o.Gender = r.Gender.getD ("Unknown") ∧
            o.MaritalStatus = r.MaritalStatus.getD ("Unknown")) rows out) := by
  constructor
  · intro rows
    induction rows with
    | nil => simp [process_customer_data]
    | cons r rs ih =>
      rcases astype_int_cases r.CustomerKey with ⟨hn, n, hok⟩ | ⟨hn, herr⟩
      · simp only [process_customer_data, hok]
        cases hpr : process_customer_data rs with
        | error e2 =>
          have he2 := process_customer_error_eq rs e2 hpr
          subst he2
          constructor
          · intro _
            rcases ih.mp hpr with ⟨r2, hr2, hb⟩
            exact ⟨r2, List.mem_cons_of_mem _ hr2, hb⟩
          · intro _
            trivial
        | ok out =>
          constructor
          · intro h
            cases h
          · rintro ⟨r2, hr2, hb⟩
            rcases List.mem_cons.mp hr2 with rfl | hr2
            · exact absurd hn hb
            · have h3 := ih.mpr ⟨r2, hr2, hb⟩
              rw [hpr] at h3
              cases h3
      · simp only [process_customer_data, herr]
        constructor
        · intro _
          exact ⟨r, List.mem_cons_self _ _, hn⟩
        · intro _
          trivial
  · intro rows
    induction rows with
    | nil => exact fun _ => ⟨[], rfl, List.Forall₂.nil⟩
    | cons r rs ih =>
      intro h
      have hn := h r (List.mem_cons_self _ _)
      rcases astype_int_cases r.CustomerKey with ⟨_, n, hok⟩ | ⟨hn2, _⟩
      · rcases ih (fun r2 h2 => h r2 (List.mem_cons_of_mem _ h2)) with
          ⟨out, hout, hf⟩
        refine ⟨CustomerRow.mk n r.FirstName r.LastName
            (r.Gender.getD ("Unknown"))
            (r.MaritalStatus.getD ("Unknown")) :: out, ?_, ?_⟩
        · simp only [process_customer_data, hok, hout]
        · exact List.Forall₂.cons ⟨hok, rfl, rfl, rfl, rfl⟩ hf
      · exact absurd hn hn2

/-- Witness for customer_coercion_and_fill: a null key fails, a numeric
key succeeds. -/
theorem customer_coercion_and_fill_witness :
    process_customer_data
        [{ CustomerKey := .null, FirstName := "X", LastName := "Y",
           Gender := none, MaritalStatus := none }]
      = .error .typeError ∧
    process_customer_data
        [{ CustomerKey := .num 7, FirstName := "A", LastName := "B",
           Gender := none, MaritalStatus := some ("M") }]
      ≠ .error .typeError := by
  constructor
  · exact (customer_coercion_and_fill.1 _).mpr
      ⟨_, List.mem_cons_self _ _, by simp [RawValue.numeric]⟩
  · rcases customer_coercion_and_fill.2
        [{ CustomerKey := .num 7, FirstName := "A", LastName := "B",
           Gender := none, MaritalStatus := some ("M") }]
        (by
          intro r hr
          rcases List.mem_singleton.mp hr with rfl
          exact trivial) with ⟨out, hout, _⟩
    rw [hout]
    simp

theorem optMean_all_some (l : List (Option ℚ)) (hall : ∀ x ∈ l, x.isSome)
    (hne : l ≠ []) : optMean l = some (optSum l / (l.length : ℚ)) := by
  unfold optMean optSum
  have hlen : (l.filterMap id).length = l.length := filterMap_id_length l hall
  have hempty : ¬ (l.filterMap id).isEmpty = true := by
    rw [List.isEmpty_iff]
    intro h0
    apply hne
    have := congrArg List.length h0
    rw [hlen] at this
    exact List.length_eq_zero.mp this
  rw [if_neg hempty, hlen]

/-- C9 (amended): in Customer Insights, a joined row with null SalesAmount
counts toward OrderCount but is excluded from TotalSpend and AvgOrderValue;
consequently AvgOrderValue = TotalSpend / OrderCount is guaranteed for
groups in which every joined row has a non-null SalesAmount. -/
theorem customer_insights_null_handling :
    ∀ (customers : List CustomerRow) (sales : List SalesRow),
      ∀ row ∈ create_customer_insights customers sales,
        row.OrderCount = (insightsGroup customers sales
            (row.CustomerKey, row.FirstName, row.LastName, row.Gender,
              row.MaritalStatus)).length ∧
        row.TotalSpend = (((insightsGroup customers sales
            (row.CustomerKey, row.FirstName, row.LastName, row.Gender,
              row.MaritalStatus)).map
            (fun sc => sc.1.SalesAmount)).filterMap id).sum ∧
        row.AvgOrderValue = optMean ((insightsGroup customers sales
            (row.CustomerKey, row.FirstName, row.LastName, row.Gender,
              row.MaritalStatus)).map (fun sc => sc.1.SalesAmount)) ∧
        ((∀ sc ∈ insightsGroup customers sales
            (row.CustomerKey, row.FirstName, row.LastName, row.Gender,
              row.MaritalStatus), (sc.1.SalesAmount).isSome) →
          insightsGroup customers sales
            (row.CustomerKey, row.FirstName, row.LastName, row.Gender,
              row.MaritalStatus) ≠ [] →
          row.AvgOrderValue
            = some (row.TotalSpend / (row.OrderCount : ℚ))) := by
  intro customers sales row hrow
  have hview : create_customer_insights customers sales
      = List.insertionSort
          (fun a b : InsightsRow => b.TotalSpend ≤ a.TotalSpend)
          (aggregate insightsKeyLe insightsKey insightsAgg
            (joinSalesCustomers sales customers)) := rfl
  rw [hview] at hrow
  have h2 := (List.perm_insertionSort _ _).mem_iff.mp hrow
  rcases mem_aggregate h2 with ⟨k, _, rfl⟩
  refine ⟨rfl, rfl, rfl, fun hall hne => ?_⟩
  have h3 : optMean (((joinSalesCustomers sales customers).filter
        (fun r => decide (insightsKey r = k))).map
        (fun sc => sc.1.SalesAmount))
      = some (optSum (((joinSalesCustomers sales customers).filter
          (fun r => decide (insightsKey r = k))).map
          (fun sc => sc.1.SalesAmount))
        / ((((joinSalesCustomers sales customers).filter
            (fun r => decide (insightsKey r = k))).map
            (fun sc => sc.1.SalesAmount)).length : ℚ)) := by
    apply optMean_all_some
    · intro x hx
      rcases List.mem_map.mp hx with ⟨sc, hsc, rfl⟩
      exact hall sc hsc
    · intro hnil
      exact hne (List.map_eq_nil_iff.mp hnil)
  rw [List.length_map] at h3
  exact h3

/-- Counterexample to C9 as stated: a group that contains a joined row
with null SalesAmount (product 99 never matched) and still satisfies
AvgOrderValue = TotalSpend / OrderCount, because the remaining amounts sum
to zero. -/
theorem insights_avg_only_if_counterexample :
    create_customer_insights cxCustomers cxSilver
      = [InsightsRow.mk 1 ("A") ("B") ("F") ("M") 0 2 (some 0)] ∧
    (mkSalesRow cxRawSalesA none,
        CustomerRow.mk 1 ("A") ("B") ("F") ("M"))
      ∈ insightsGroup cxCustomers cxSilver (1, "A", "B", "F", "M") ∧
    (mkSalesRow cxRawSalesA none).SalesAmount = none ∧
    some ((0 : ℚ)) = some ((0 : ℚ) / ((2 : ℕ) : ℚ)) := by
  refine ⟨?_, ?_, rfl, by norm_num⟩
  · norm_num [create_customer_insights, aggregate, joinSalesCustomers,
      insightsKey, insightsAgg, cxCustomers, cxSilver, merge_product_prices,
      mkSalesRow, cxRawProducts, cxRawSalesA, cxRawSalesB, optSum, optMean,
      List.insertionSort, List.orderedInsert, List.filterMap_cons,
      List.sum_cons]
  · norm_num [insightsGroup, joinSalesCustomers, insightsKey, cxCustomers,
      cxSilver, merge_product_prices, mkSalesRow, cxRawProducts,
      cxRawSalesA, cxRawSalesB]

/-- Witness for customer_insights_null_handling: the counterexample group
has OrderCount 2, the row count of its join group. -/
theorem customer_insights_null_handling_witness :
    (2 : ℕ) = (insightsGroup cxCustomers cxSilver
        (1, "A", "B", "F", "M")).length :=
  (customer_insights_null_handling cxCustomers cxSilver
    (InsightsRow.mk 1 ("A") ("B") ("F") ("M") 0 2 (some 0))
    (by norm_num [create_customer_insights, aggregate, joinSalesCustomers,
      insightsKey, insightsAgg, cxCustomers, cxSilver, merge_product_prices,
      mkSalesRow, cxRawProducts, cxRawSalesA, cxRawSalesB, optSum, optMean,
      List.insertionSort, List.orderedInsert, List.filterMap_cons,
      List.sum_cons])).1

theorem floor_zero_of (q : ℚ) (h1 : 0 ≤ q) (h2 : q < 1) : ⌊q⌋ = 0 := by
  rw [Int.floor_eq_iff]
  push_cast
  constructor <;> linarith

theorem floor_one_of (q : ℚ) (h1 : 1 ≤ q) (h2 : q < 2) : ⌊q⌋ = 1 := by
  rw [Int.floor_eq_iff]
  push_cast
  constructor <;> linarith

/-- C10 (amended): qcut on TotalSpend raises a ValueError exactly when the
interpolated quartile bin edges are not all distinct; with distinct edges
every customer is labelled; a single-row view always errors (all five
edges coincide). -/
theorem customer_segments_qcut :
    (∀ view : List InsightsRow,
        create_customer_segments view = .error .valueError
          ↔ ¬ (qcutEdges (view.map (fun r => r.TotalSpend))).Nodup) ∧
    (∀ view : List InsightsRow,
        (qcutEdges (view.map (fun r => r.TotalSpend))).Nodup →
        create_customer_segments view = .ok (view.map (fun r =>
          (r.CustomerKey, segmentLabel
            (qcutEdges (view.map (fun r2 => r2.TotalSpend)))
            r.TotalSpend)))) ∧
    (∀ r : InsightsRow,
        create_customer_segments [r] = .error .valueError) := by
  refine ⟨?_, ?_, ?_⟩
  · intro view
    by_cases h : (qcutEdges (view.map (fun r => r.TotalSpend))).Nodup
    · simp [create_customer_segments, h]
    · simp [create_customer_segments, h]
  · intro view h
    simp [create_customer_segments, h]
  · intro r
    have hx : List.insertionSort (fun a b : ℚ => a ≤ b) [r.TotalSpend]
        = [r.TotalSpend] := by
      simp [List.insertionSort, List.orderedInsert]
    have hedges : qcutEdges [r.TotalSpend]
        = [r.TotalSpend, r.TotalSpend, r.TotalSpend, r.TotalSpend,
           r.TotalSpend] := by
      simp only [qcutEdges]
      rw [hx]
      norm_num [quantileAt]
    simp [create_customer_segments, hedges]

/-- C10 counterexample: a two-row view — fewer than four rows — has five
distinct interpolated quartile edges, so qcut succeeds and labels both
customers instead of raising. -/
theorem customer_segments_few_rows_counterexample :
    cxView2.length = 2 ∧
    create_customer_segments cxView2 = .ok [(1, "Low"), (2, "Premium")] := by
  constructor
  · rfl
  · have hedges : qcutEdges [(10 : ℚ), 20] = [10, 25 / 2, 15, 35 / 2, 20] := by
      norm_num [qcutEdges, quantileAt, List.insertionSort,
        List.orderedInsert, floor_zero_of, floor_one_of]
    norm_num [create_customer_segments, hedges, cxView2, segmentLabel]

/-- Witness for customer_segments_qcut: applying the success case to the
two-row view labels customer 1 Low and customer 2 Premium. -/
theorem customer_segments_qcut_witness :
    create_customer_segments cxView2 = .ok (cxView2.map (fun r =>
      (r.CustomerKey, segmentLabel
        (qcutEdges (cxView2.map (fun r2 => r2.TotalSpend)))
        r.TotalSpend))) :=
  customer_segments_qcut.2.1 cxView2
    (by norm_num [qcutEdges, quantileAt, cxView2, List.insertionSort,
      List.orderedInsert, floor_zero_of, floor_one_of])

end AdventureWorks
